import Mathlib

/-!
Shallow embedding of `src/main.py` and `src/Main.py` from the
Axess-Systems Citrix status report repository, with proofs of the
specification claims about the two scripts.

Modelling conventions:
* Python dicts are association lists (`Dict`) with insertion-order
  semantics: assigning to an existing key overwrites its value in place,
  a new key is appended at the end.
* Python `set(...)` applied to a list of service ids is modelled by
  `pySet`, which removes duplicates keeping first occurrences.  (CPython
  iterates a set in an implementation-defined order; every property
  proved below about the rendered report is order-independent.)
* A fetched JSON document is modelled post-parsing: the
  `connected_hub_services` endpoint yields a list of region records; the
  `statuses` endpoint yields `none` when the `groups` key is absent —
  in particular for the `{}` that `fetch_data` returns on a request
  error — and `some groups` otherwise.
* Python exceptions are modelled with `Except String`.
* Definitions without a namespace follow `src/main.py`; the duplicated
  script `src/Main.py` is embedded in the `MainVariant` namespace.
-/

/-- Python-style dictionary: association list in insertion order. -/
abbrev Dict (α β : Type) := List (α × β)

/-- `d[k] = v`: overwrite the value in place when `k` is already a key,
otherwise append the new binding at the end. -/
def dictInsert {α β : Type} [DecidableEq α] : Dict α β → α → β → Dict α β
  | [], k, v => [(k, v)]
  | (k', v') :: t, k, v =>
      if k' = k then (k, v) :: t else (k', v') :: dictInsert t k v

/-- `d.get(k)`; also the model of Python's `k in d` via `Option.isSome`. -/
def dictLookup {α β : Type} [DecidableEq α] : Dict α β → α → Option β
  | [], _ => none
  | (k', v') :: t, k => if k' = k then some v' else dictLookup t k

/-- The keys of a dictionary, in insertion order. -/
def dictKeys {α β : Type} (d : Dict α β) : List α := d.map Prod.fst

/-- Python `set(...)` of a list of service ids, as a duplicate-free list
(first occurrences kept). -/
def pySet : List Nat → List Nat
  | [] => []
  | x :: t => x :: (pySet t).filter (fun y => y != x)

/-- One service record of the `statuses` endpoint (`service_id`,
`service_name`, `status`). -/
structure ServiceRecord where
  service_id : Nat
  service_name : String
  status : Int
  deriving DecidableEq, Repr

/-- One `group` of the `statuses` endpoint (only its `services` list is
read by the scripts; named `ServiceGroup` here because `Group` is taken
by the ambient mathematics library). -/
structure ServiceGroup where
  services : List ServiceRecord
  deriving DecidableEq, Repr

/-- Parsed `statuses` response: `none` when the `groups` key is absent
(the `{}` of a failed fetch), otherwise the list of groups. -/
abbrev StatusResponse := Option (List ServiceGroup)

/-- One region record of the `connected_hub_services` endpoint. -/
structure RegionRecord where
  name : String
  service_ids : List Nat
  deriving DecidableEq, Repr

/-- Parsed `connected_hub_services` response; a failed fetch gives `{}`,
which iterates as the empty list. -/
abbrev RegionResponse := List RegionRecord

/-- The per-service value stored by `get_service_statuses`. -/
structure ServiceStatus where
  name : String
  status : Int
  deriving DecidableEq, Repr

/-- The `overall_status` dictionary of `get_service_statuses`. -/
structure OverallStatus where
  all_up : Bool
  count_status_1 : Nat
  count_status_2 : Nat
  count_status_3 : Nat
  deriving DecidableEq, Repr

/-- `src/main.py::get_region_services`, parametrised by the parsed
response of the fetch it performs. -/
def get_region_services (data : RegionResponse) : Dict String (List Nat) :=
  data.foldl
    (fun region_services region =>
      dictInsert region_services region.name (pySet region.service_ids)) []

/-- The initial `overall_status` dictionary. -/
def initOverall : OverallStatus :=
  { all_up := true, count_status_1 := 0, count_status_2 := 0, count_status_3 := 0 }

/-- Body of the inner loop of `get_service_statuses`: record the service
in the id-keyed mapping, then update the counters and the flag. -/
def stepService (st : Dict Nat ServiceStatus × OverallStatus)
    (service : ServiceRecord) : Dict Nat ServiceStatus × OverallStatus :=
  let d := dictInsert st.1 service.service_id
    { name := service.service_name, status := service.status }
  let o := st.2
  if service.status = 1 then
    (d, { o with count_status_1 := o.count_status_1 + 1 })
  else if service.status = 2 then
    (d, { o with count_status_2 := o.count_status_2 + 1, all_up := false })
  else if service.status = 3 then
    (d, { o with count_status_3 := o.count_status_3 + 1, all_up := false })
  else
    (d, o)

/-- `src/main.py::get_service_statuses`, parametrised by the parsed
response of the fetch it performs. -/
def get_service_statuses (data : StatusResponse) :
    Dict Nat ServiceStatus × OverallStatus :=
  match data with
  | none => ([], initOverall)
  | some groups =>
      groups.foldl (fun st group => group.services.foldl stepService st)
        ([], initOverall)

/-- All service records of a response, in the order the nested loops of
`get_service_statuses` walk them. -/
def allRecords (data : StatusResponse) : List ServiceRecord :=
  match data with
  | none => []
  | some groups => groups.foldr (fun group acc => group.services ++ acc) []

/-- The number of service records walked in one run. -/
def numRecords (data : StatusResponse) : Nat := (allRecords data).length

/-- The `"Up" if service['status'] == 1 else "Down"` expression used by
both per-region sections of `create_report`. -/
def renderStatus (status : Int) : String :=
  if status = 1 then "Up" else "Down"

/-- Python `True`/`False` as rendered inside an f-string. -/
def pyBool (b : Bool) : String := if b then "True" else "False"

/-- The `<li>` items of one region in the "Services by Region" section:
ids absent from `service_statuses` are skipped by the `in` guard. -/
def regionServicesList (service_statuses : Dict Nat ServiceStatus) :
    List Nat → String
  | [] => ""
  | service_id :: rest =>
      (match dictLookup service_statuses service_id with
       | some service =>
           "<li>" ++ service.name ++ ": " ++ renderStatus service.status ++ "</li>"
       | none => "") ++ regionServicesList service_statuses rest

/-- The "Services by Region" section body. -/
def regionsSection (service_statuses : Dict Nat ServiceStatus) :
    Dict String (List Nat) → String
  | [] => ""
  | (region, service_ids) :: rest =>
      "<h3>" ++ region ++ ":</h3>" ++ "<ul>"
        ++ regionServicesList service_statuses service_ids ++ "</ul>"
        ++ regionsSection service_statuses rest

/-- The `region_status` defaultdict of the "Detailed Status by Region"
section, as the pair (list under key "Up", list under key "Down"):
present services append their name to the list picked by
`"Up" if status == 1 else "Down"`; absent ids contribute nothing. -/
def regionStatusLists (service_statuses : Dict Nat ServiceStatus) :
    List Nat → List String × List String
  | [] => ([], [])
  | service_id :: rest =>
      let acc := regionStatusLists service_statuses rest
      match dictLookup service_statuses service_id with
      | some service =>
          if service.status = 1 then (service.name :: acc.1, acc.2)
          else (acc.1, service.name :: acc.2)
      | none => acc

/-- A `<ul>`-body of `<li>` items, one per name. -/
def ulItems : List String → String
  | [] => ""
  | name :: rest => "<li>" ++ name ++ "</li>" ++ ulItems rest

/-- One region of the "Detailed Status by Region" section (counts, then
the conditional Up and Down lists; Python's `if region_status['Up']:` is
list truthiness, i.e. non-emptiness). -/
def detailedRegion (service_statuses : Dict Nat ServiceStatus)
    (service_ids : List Nat) : String :=
  let rs := regionStatusLists service_statuses service_ids
  "<p>Services Up: " ++ toString rs.1.length ++ "</p>"
    ++ "<p>Services Down: " ++ toString rs.2.length ++ "</p>"
    ++ (if rs.1.isEmpty then "" else
          "<h4>Services Up:</h4>" ++ "<ul>" ++ ulItems rs.1 ++ "</ul>")
    ++ (if rs.2.isEmpty then "" else
          "<h4>Services Down:</h4>" ++ "<ul>" ++ ulItems rs.2 ++ "</ul>")

/-- The "Detailed Status by Region" section body. -/
def detailedSection (service_statuses : Dict Nat ServiceStatus) :
    Dict String (List Nat) → String
  | [] => ""
  | (region, service_ids) :: rest =>
      "<h3>" ++ region ++ ":</h3>"
        ++ detailedRegion service_statuses service_ids
        ++ detailedSection service_statuses rest

/-- `src/main.py::create_report`, parametrised by the two parsed
upstream responses consumed by the aggregators it calls. -/
def create_report (regionData : RegionResponse) (statusData : StatusResponse) :
    String :=
  let region_services := get_region_services regionData
  let service_statuses := (get_service_statuses statusData).1
  let overall_status := (get_service_statuses statusData).2
  "<html><body>" ++ "<h1>Citrix Service Status Summary</h1>"
    ++ "<h2>Summary:</h2>"
    ++ "<p>Total number of regions: " ++ toString region_services.length ++ "</p>"
    ++ "<p>Total number of services: " ++ toString service_statuses.length ++ "</p>"
    ++ "<p>Overall status: "
    ++ (if overall_status.all_up then "All services up" else "Some services are down")
    ++ "</p>"
    ++ "<h2>Overall Status:</h2>"
    ++ "<p>All services up: " ++ pyBool overall_status.all_up ++ "</p>"
    ++ "<p>Services up: " ++ toString overall_status.count_status_1 ++ "</p>"
    ++ "<p>Services with issues: " ++ toString overall_status.count_status_2 ++ "</p>"
    ++ "<p>Services down: " ++ toString overall_status.count_status_3 ++ "</p>"
    ++ "<h2>Services by Region:</h2>"
    ++ regionsSection service_statuses region_services
    ++ "<h2>Detailed Status by Region:</h2>"
    ++ detailedSection service_statuses region_services
    ++ "</body></html>"

/-- Outcomes of the four effectful SMTP steps inside the `with` block of
`send_email`: `some e` means that step raises exception `e` when it is
reached, `none` that it succeeds. -/
structure SmtpEnv where
  connect_exc : Option String
  starttls_exc : Option String
  login_exc : Option String
  send_exc : Option String
  deriving DecidableEq, Repr

/-- The `with smtplib.SMTP(...)` block shared by both scripts: connect,
optionally negotiate TLS, log in, send; the first step that raises
aborts the block with its exception. -/
def smtpTransaction (env : SmtpEnv) (use_tls : Bool) : Except String Unit :=
  match env.connect_exc with
  | some e => Except.error e
  | none =>
    match (if use_tls then env.starttls_exc else none) with
    | some e => Except.error e
    | none =>
      match env.login_exc with
      | some e => Except.error e
      | none =>
        match env.send_exc with
        | some e => Except.error e
        | none => Except.ok ()

/-- What a call to `send_email` does: `outcome` is the exception (if
any) escaping the call, `logged_error` the error message logged by an
`except` handler inside it. -/
structure SendResult where
  outcome : Except String Unit
  logged_error : Option String
  deriving Repr

/-- `src/main.py::send_email`, parametrised by the SMTP step outcomes
and the parsed `USE_TLS` flag: the whole transaction sits inside
`try: ... except Exception as e:` which logs and swallows. -/
def send_email (env : SmtpEnv) (use_tls : Bool) : SendResult :=
  match smtpTransaction env use_tls with
  | Except.ok _ => { outcome := Except.ok (), logged_error := none }
  | Except.error e => { outcome := Except.ok (), logged_error := some e }

/-- The error raised by `os.getenv('EMAIL_RECIPIENTS').split(',')` when
the variable is unset: `os.getenv` returns `None`, whose attribute
lookup `.split` raises `AttributeError`.  No handler in either script
encloses this line, so it terminates the run. -/
def noneSplitError : String :=
  "AttributeError: NoneType object has no attribute split"

/-- Externally visible outcome of one run of `main`: the report written
to `citrix_service_status_report.html` (if execution reached the write),
whether an SMTP transaction was started, and the exception (if any)
escaping `main`. -/
structure RunOutcome where
  file_written : Option String
  smtp_attempted : Bool
  result : Except String Unit

/-- `src/main.py::main`, parametrised by the two parsed upstream
responses, the raw `EMAIL_RECIPIENTS` variable (`none` when unset), the
SMTP step outcomes and the parsed `USE_TLS` flag.  The report is built
and written first; then `os.getenv('EMAIL_RECIPIENTS').split(',')` runs
(raising when the variable is unset), and only then `send_email`. -/
def main_run (regionData : RegionResponse) (statusData : StatusResponse)
    (email_recipients : Option String) (env : SmtpEnv) (use_tls : Bool) :
    RunOutcome :=
  let report := create_report regionData statusData
  match email_recipients with
  | none =>
      { file_written := some report, smtp_attempted := false,
        result := Except.error noneSplitError }
  | some _ =>
      { file_written := some report, smtp_attempted := true,
        result := (send_email env use_tls).outcome }

/-!
Embedding of `src/Main.py`.  Its `fetch_data`, `get_region_services`,
`get_service_statuses` and `create_report` are textually identical to
those of `src/main.py` up to the `log_with_timestamp` calls; they are
re-embedded here verbatim so the equivalence can be stated between two
independent definitions.  Its `send_email` differs: the SMTP block has
no `try`/`except`, so exceptions escape the call, and `main` has no
handler either, so they terminate the run.
-/

namespace MainVariant

/-- `src/Main.py::get_region_services`. -/
def get_region_services (data : RegionResponse) : Dict String (List Nat) :=
  data.foldl
    (fun region_services region =>
      dictInsert region_services region.name (pySet region.service_ids)) []

/-- `src/Main.py::get_service_statuses` (same loop body as
`src/main.py`, embedded via the shared `stepService`). -/
def get_service_statuses (data : StatusResponse) :
    Dict Nat ServiceStatus × OverallStatus :=
  match data with
  | none => ([], initOverall)
  | some groups =>
      groups.foldl (fun st group => group.services.foldl stepService st)
        ([], initOverall)

/-- `src/Main.py::create_report`, built from the same section texts as
`src/main.py`'s (the two function bodies are character-identical). -/
def create_report (regionData : RegionResponse) (statusData : StatusResponse) :
    String :=
  let region_services := MainVariant.get_region_services regionData
  let service_statuses := (MainVariant.get_service_statuses statusData).1
  let overall_status := (MainVariant.get_service_statuses statusData).2
  "<html><body>" ++ "<h1>Citrix Service Status Summary</h1>"
    ++ "<h2>Summary:</h2>"
    ++ "<p>Total number of regions: " ++ toString region_services.length ++ "</p>"
    ++ "<p>Total number of services: " ++ toString service_statuses.length ++ "</p>"
    ++ "<p>Overall status: "
    ++ (if overall_status.all_up then "All services up" else "Some services are down")
    ++ "</p>"
    ++ "<h2>Overall Status:</h2>"
    ++ "<p>All services up: " ++ pyBool overall_status.all_up ++ "</p>"
    ++ "<p>Services up: " ++ toString overall_status.count_status_1 ++ "</p>"
    ++ "<p>Services with issues: " ++ toString overall_status.count_status_2 ++ "</p>"
    ++ "<p>Services down: " ++ toString overall_status.count_status_3 ++ "</p>"
    ++ "<h2>Services by Region:</h2>"
    ++ regionsSection service_statuses region_services
    ++ "<h2>Detailed Status by Region:</h2>"
    ++ detailedSection service_statuses region_services
    ++ "</body></html>"

/-- `src/Main.py::send_email`: the same SMTP block, but with no
`try`/`except` around it — an exception in any step escapes the call and
nothing is logged. -/
def send_email (env : SmtpEnv) (use_tls : Bool) : SendResult :=
  { outcome := smtpTransaction env use_tls, logged_error := none }

/-- `src/Main.py::main`: print the report, write the file, then
`os.getenv('EMAIL_RECIPIENTS').split(',')` and `send_email` — whose
exceptions now escape `main` and terminate the run. -/
def main_run (regionData : RegionResponse) (statusData : StatusResponse)
    (email_recipients : Option String) (env : SmtpEnv) (use_tls : Bool) :
    RunOutcome :=
  let report := MainVariant.create_report regionData statusData
  match email_recipients with
  | none =>
      { file_written := some report, smtp_attempted := false,
        result := Except.error noneSplitError }
  | some _ =>
      { file_written := some report, smtp_attempted := true,
        result := (MainVariant.send_email env use_tls).outcome }

end MainVariant

/-- `needle` is a leading segment of `hay` (character lists). -/
def isPre : List Char → List Char → Bool
  | [], _ => true
  | _ :: _, [] => false
  | a :: as, b :: bs => a == b && isPre as bs

/-- `needle` occurs contiguously somewhere in `hay`. -/
def hasSub (needle : List Char) : List Char → Bool
  | [] => needle.isEmpty
  | c :: t => isPre needle (c :: t) || hasSub needle t

/-- Python's `needle in hay` on strings. -/
def strHas (hay needle : String) : Bool := hasSub needle.toList hay.toList

/-- Fixture for the round-trip claim: two regions. -/
def fixRegions : RegionResponse :=
  [{ name := "US East", service_ids := [1, 2] },
   { name := "EU West", service_ids := [3] }]

/-- Fixture for the round-trip claim: three services, two with status 1
and one with status 3. -/
def fixStatuses : StatusResponse :=
  some [{ services :=
    [{ service_id := 1, service_name := "Svc A", status := 1 },
     { service_id := 2, service_name := "Svc B", status := 1 },
     { service_id := 3, service_name := "Svc C", status := 3 }] }]

/-- Fixture with the same `service_id` in two records: both have status
1, so the counters see two records while the mapping keeps one entry. -/
def dupStatuses : StatusResponse :=
  some [{ services :=
    [{ service_id := 7, service_name := "Svc old", status := 1 },
     { service_id := 7, service_name := "Svc new", status := 1 }] }]

/-- SMTP step outcomes where the connection constructor itself raises. -/
def connectFailEnv : SmtpEnv :=
  { connect_exc := some "connection refused"
    starttls_exc := none
    login_exc := none
    send_exc := none }

/-- SMTP step outcomes where only the login step raises. -/
def loginFailEnv : SmtpEnv :=
  { connect_exc := none
    starttls_exc := none
    login_exc := some "auth failed"
    send_exc := none }

/-- Fixture with two region records sharing one name: the second
record's id set overwrites the first. -/
def dupRegions : RegionResponse :=
  [{ name := "Dup", service_ids := [1] }, { name := "Dup", service_ids := [2] }]

/-! ### Dictionary lemmas -/

@[simp] theorem dictKeys_nil {α β : Type} : dictKeys ([] : Dict α β) = [] := rfl

@[simp] theorem dictKeys_cons {α β : Type} (k : α) (v : β) (t : Dict α β) :
    dictKeys ((k, v) :: t) = k :: dictKeys t := rfl

theorem dictLookup_insert {α β : Type} [DecidableEq α]
    (d : Dict α β) (k : α) (v : β) (j : α) :
    dictLookup (dictInsert d k v) j = if k = j then some v else dictLookup d j := by
  induction d with
  | nil => rfl
  | cons p t ih =>
    obtain ⟨k', v'⟩ := p
    by_cases hk : k' = k
    · subst hk
      by_cases hj : k' = j <;> simp [dictInsert, dictLookup, hj]
    · by_cases hj : k' = j
      · subst hj
        have hkj : ¬ k = k' := Ne.symm hk
        simp [dictInsert, dictLookup, hk, hkj]
      · simp [dictInsert, dictLookup, hk, hj, ih]

theorem dictKeys_insert {α β : Type} [DecidableEq α]
    (d : Dict α β) (k : α) (v : β) :
    dictKeys (dictInsert d k v)
      = if k ∈ dictKeys d then dictKeys d else dictKeys d ++ [k] := by
  induction d with
  | nil => simp [dictInsert]
  | cons p t ih =>
    obtain ⟨k', v'⟩ := p
    by_cases hk : k' = k
    · subst hk
      simp [dictInsert]
    · have hkk : k ≠ k' := Ne.symm hk
      simp only [dictInsert, if_neg hk, dictKeys_cons, List.mem_cons, ih]
      by_cases hm : k ∈ dictKeys t
      · simp [hm, hkk]
      · simp [hm, hkk]

theorem mem_dictKeys_insert {α β : Type} [DecidableEq α]
    (d : Dict α β) (k : α) (v : β) (j : α) :
    j ∈ dictKeys (dictInsert d k v) ↔ j ∈ dictKeys d ∨ j = k := by
  rw [dictKeys_insert]
  by_cases hm : k ∈ dictKeys d
  · simp only [if_pos hm]
    constructor
    · exact Or.inl
    · rintro (h | rfl)
      · exact h
      · exact hm
  · simp [if_neg hm]

theorem nodup_dictKeys_insert {α β : Type} [DecidableEq α]
    (d : Dict α β) (k : α) (v : β) (h : (dictKeys d).Nodup) :
    (dictKeys (dictInsert d k v)).Nodup := by
  rw [dictKeys_insert]
  by_cases hm : k ∈ dictKeys d
  · rwa [if_pos hm]
  · rw [if_neg hm]
    simp [List.nodup_append, h, hm]

/-- Looking a key up after folding `dictInsert` over a list finds the
value of the last element written to that key, else falls through to the
initial dictionary. -/
theorem dictLookup_foldl_insert {α β γ : Type} [DecidableEq α]
    (key : γ → α) (val : γ → β) (l : List γ) (d0 : Dict α β) (j : α) :
    dictLookup (l.foldl (fun d x => dictInsert d (key x) (val x)) d0) j
      = match l.reverse.find? (fun x => decide (key x = j)) with
        | some x => some (val x)
        | none => dictLookup d0 j := by
  induction l using List.reverseRecOn with
  | nil => simp
  | append_singleton t x ih =>
    rw [List.foldl_append]
    simp only [List.foldl_cons, List.foldl_nil, List.reverse_append,
      List.reverse_singleton, List.singleton_append, List.find?_cons]
    rw [dictLookup_insert]
    by_cases hj : key x = j
    · simp [hj]
    · simp [if_neg hj, decide_eq_false hj, ih]

theorem mem_dictKeys_foldl_insert {α β γ : Type} [DecidableEq α]
    (key : γ → α) (val : γ → β) (l : List γ) (d0 : Dict α β) (j : α) :
    j ∈ dictKeys (l.foldl (fun d x => dictInsert d (key x) (val x)) d0)
      ↔ j ∈ dictKeys d0 ∨ ∃ x ∈ l, key x = j := by
  induction l generalizing d0 with
  | nil => simp
  | cons x t ih =>
    rw [List.foldl_cons, ih, mem_dictKeys_insert]
    constructor
    · rintro (⟨h | rfl⟩ | ⟨y, hy, rfl⟩)
      · exact Or.inl h
      · exact Or.inr ⟨x, List.mem_cons_self x t, rfl⟩
      · exact Or.inr ⟨y, List.mem_cons_of_mem x hy, rfl⟩
    · rintro (h | ⟨y, hy, rfl⟩)
      · exact Or.inl (Or.inl h)
      · rcases List.mem_cons.mp hy with rfl | hy
        · exact Or.inl (Or.inr rfl)
        · exact Or.inr ⟨y, hy, rfl⟩

theorem nodup_dictKeys_foldl_insert {α β γ : Type} [DecidableEq α]
    (key : γ → α) (val : γ → β) (l : List γ) (d0 : Dict α β)
    (h : (dictKeys d0).Nodup) :
    (dictKeys (l.foldl (fun d x => dictInsert d (key x) (val x)) d0)).Nodup := by
  induction l generalizing d0 with
  | nil => exact h
  | cons x t ih => exact ih _ (nodup_dictKeys_insert _ _ _ h)

/-! ### `pySet` lemmas -/

theorem mem_pySet (l : List Nat) (i : Nat) : i ∈ pySet l ↔ i ∈ l := by
  induction l with
  | nil => simp [pySet]
  | cons x t ih =>
    simp only [pySet, List.mem_cons, List.mem_filter, bne_iff_ne, ne_eq, ih]
    by_cases h : i = x <;> simp [h]

theorem nodup_pySet (l : List Nat) : (pySet l).Nodup := by
  induction l with
  | nil => simp [pySet]
  | cons x t ih =>
    simp only [pySet, List.nodup_cons]
    refine ⟨?_, List.Nodup.filter _ ih⟩
    simp [List.mem_filter]

/-! ### Status aggregator lemmas -/

theorem stepService_fst (st : Dict Nat ServiceStatus × OverallStatus)
    (s : ServiceRecord) :
    (stepService st s).1
      = dictInsert st.1 s.service_id { name := s.service_name, status := s.status } := by
  unfold stepService
  split_ifs <;> rfl

theorem stepService_count1 (st : Dict Nat ServiceStatus × OverallStatus)
    (s : ServiceRecord) :
    (stepService st s).2.count_status_1
      = st.2.count_status_1 + (if s.status = 1 then 1 else 0) := by
  unfold stepService
  split_ifs <;> simp

theorem stepService_count2 (st : Dict Nat ServiceStatus × OverallStatus)
    (s : ServiceRecord) :
    (stepService st s).2.count_status_2
      = st.2.count_status_2 + (if s.status = 2 then 1 else 0) := by
  unfold stepService
  split_ifs <;> simp_all <;> omega

theorem stepService_count3 (st : Dict Nat ServiceStatus × OverallStatus)
    (s : ServiceRecord) :
    (stepService st s).2.count_status_3
      = st.2.count_status_3 + (if s.status = 3 then 1 else 0) := by
  unfold stepService
  split_ifs <;> simp_all <;> omega

theorem stepService_all_up (st : Dict Nat ServiceStatus × OverallStatus)
    (s : ServiceRecord) :
    (stepService st s).2.all_up
      = (st.2.all_up && !(decide (s.status = 2)) && !(decide (s.status = 3))) := by
  unfold stepService
  split_ifs <;> simp_all

theorem foldl_step_fst (l : List ServiceRecord)
    (st : Dict Nat ServiceStatus × OverallStatus) :
    (l.foldl stepService st).1
      = l.foldl
          (fun d s => dictInsert d s.service_id { name := s.service_name, status := s.status })
          st.1 := by
  induction l generalizing st with
  | nil => rfl
  | cons s t ih =>
    rw [List.foldl_cons, List.foldl_cons, ih, stepService_fst]

theorem foldl_step_count1 (l : List ServiceRecord)
    (st : Dict Nat ServiceStatus × OverallStatus) :
    (l.foldl stepService st).2.count_status_1
      = st.2.count_status_1 + l.countP (fun s => decide (s.status = 1)) := by
  induction l generalizing st with
  | nil => simp
  | cons s t ih =>
    rw [List.foldl_cons, ih, stepService_count1, List.countP_cons]
    by_cases h : s.status = 1 <;> simp [h] <;> omega

theorem foldl_step_count2 (l : List ServiceRecord)
    (st : Dict Nat ServiceStatus × OverallStatus) :
    (l.foldl stepService st).2.count_status_2
      = st.2.count_status_2 + l.countP (fun s => decide (s.status = 2)) := by
  induction l generalizing st with
  | nil => simp
  | cons s t ih =>
    rw [List.foldl_cons, ih, stepService_count2, List.countP_cons]
    by_cases h : s.status = 2 <;> simp [h] <;> omega

theorem foldl_step_count3 (l : List ServiceRecord)
    (st : Dict Nat ServiceStatus × OverallStatus) :
    (l.foldl stepService st).2.count_status_3
      = st.2.count_status_3 + l.countP (fun s => decide (s.status = 3)) := by
  induction l generalizing st with
  | nil => simp
  | cons s t ih =>
    rw [List.foldl_cons, ih, stepService_count3, List.countP_cons]
    by_cases h : s.status = 3 <;> simp [h] <;> omega

theorem foldl_step_all_up (l : List ServiceRecord)
    (st : Dict Nat ServiceStatus × OverallStatus) :
    (l.foldl stepService st).2.all_up
      = (st.2.all_up
          && l.all (fun s => !(decide (s.status = 2)) && !(decide (s.status = 3)))) := by
  induction l generalizing st with
  | nil => simp
  | cons s t ih =>
    rw [List.foldl_cons, ih, stepService_all_up, List.all_cons]
    by_cases h2 : s.status = 2 <;> by_cases h3 : s.status = 3 <;>
      simp [h2, h3, Bool.and_assoc]

/-- The nested `for group: for service:` loops of `get_service_statuses`
are a single fold over all service records in walk order. -/
theorem get_service_statuses_eq_foldl (data : StatusResponse) :
    get_service_statuses data = (allRecords data).foldl stepService ([], initOverall) := by
  cases data with
  | none => rfl
  | some groups =>
    show groups.foldl (fun st group => group.services.foldl stepService st) ([], initOverall)
      = (groups.foldr (fun group acc => group.services ++ acc) []).foldl stepService
          ([], initOverall)
    generalize ([], initOverall) = st0
    induction groups generalizing st0 with
    | nil => rfl
    | cons g gs ih =>
      rw [List.foldl_cons, List.foldr_cons, List.foldl_append, ih]

theorem countP_three_le (l : List ServiceRecord) :
    l.countP (fun s => decide (s.status = 1)) + l.countP (fun s => decide (s.status = 2))
      + l.countP (fun s => decide (s.status = 3)) ≤ l.length := by
  induction l with
  | nil => simp
  | cons s t ih =>
    simp only [List.countP_cons, List.length_cons]
    by_cases h1 : s.status = 1 <;> by_cases h2 : s.status = 2 <;>
      by_cases h3 : s.status = 3 <;> simp [h1, h2, h3] <;> omega

theorem countP_three_eq (l : List ServiceRecord)
    (h : ∀ s ∈ l, s.status = 1 ∨ s.status = 2 ∨ s.status = 3) :
    l.countP (fun s => decide (s.status = 1)) + l.countP (fun s => decide (s.status = 2))
      + l.countP (fun s => decide (s.status = 3)) = l.length := by
  induction l with
  | nil => simp
  | cons s t ih =>
    have hs := h s (List.mem_cons_self s t)
    have ht : ∀ x ∈ t, x.status = 1 ∨ x.status = 2 ∨ x.status = 3 :=
      fun x hx => h x (List.mem_cons_of_mem s hx)
    simp only [List.countP_cons, List.length_cons]
    have hih := ih ht
    rcases hs with h1 | h2 | h3
    · simp [h1]
      omega
    · have h1 : ¬ s.status = 1 := by omega
      simp [h1, h2]
      omega
    · have h1 : ¬ s.status = 1 := by omega
      have h2 : ¬ s.status = 2 := by omega
      simp [h1, h2, h3]
      omega

/-! ### Report section lemmas -/

theorem regionStatusLists_spec (ss : Dict Nat ServiceStatus) (ids : List Nat) :
    (regionStatusLists ss ids).1
      = ((ids.filterMap (dictLookup ss)).filter (fun sv => decide (sv.status = 1))).map
          (fun sv => sv.name)
  ∧ (regionStatusLists ss ids).2
      = ((ids.filterMap (dictLookup ss)).filter (fun sv => !(decide (sv.status = 1)))).map
          (fun sv => sv.name) := by
  induction ids with
  | nil => simp [regionStatusLists]
  | cons i t ih =>
    simp only [regionStatusLists, List.filterMap_cons]
    cases h : dictLookup ss i with
    | none => simpa [h] using ih
    | some sv =>
      by_cases h1 : sv.status = 1 <;> simp [h, h1, ih.1, ih.2]

theorem regionServicesList_skips_absent (ss : Dict Nat ServiceStatus)
    (pre post : List Nat) (i : Nat) (h : dictLookup ss i = none) :
    regionServicesList ss (pre ++ i :: post) = regionServicesList ss (pre ++ post) := by
  induction pre with
  | nil => simp [regionServicesList, h]
  | cons a t ih => simp [regionServicesList, ih]

theorem regionStatusLists_skips_absent (ss : Dict Nat ServiceStatus)
    (pre post : List Nat) (i : Nat) (h : dictLookup ss i = none) :
    regionStatusLists ss (pre ++ i :: post) = regionStatusLists ss (pre ++ post) := by
  induction pre with
  | nil => simp [regionStatusLists, h]
  | cons a t ih => simp [regionStatusLists, ih]

/-! ### Specialised aggregator lemmas -/

theorem get_region_services_lookup (data : RegionResponse) (n : String) :
    dictLookup (get_region_services data) n
      = (data.reverse.find? (fun r => decide (r.name = n))).map
          (fun r => pySet r.service_ids) := by
  have h := dictLookup_foldl_insert (fun r : RegionRecord => r.name)
      (fun r => pySet r.service_ids) data [] n
  rw [show get_region_services data
      = data.foldl (fun d r => dictInsert d r.name (pySet r.service_ids)) [] from rfl]
  rw [h]
  cases data.reverse.find? (fun r => decide (r.name = n)) <;> simp [dictLookup]

theorem get_region_services_keys_mem (data : RegionResponse) (n : String) :
    n ∈ dictKeys (get_region_services data) ↔ ∃ r ∈ data, r.name = n := by
  have h := mem_dictKeys_foldl_insert (fun r : RegionRecord => r.name)
      (fun r => pySet r.service_ids) data [] n
  rw [show get_region_services data
      = data.foldl (fun d r => dictInsert d r.name (pySet r.service_ids)) [] from rfl]
  simpa using h

theorem get_region_services_keys_nodup (data : RegionResponse) :
    (dictKeys (get_region_services data)).Nodup := by
  have h := nodup_dictKeys_foldl_insert (fun r : RegionRecord => r.name)
      (fun r => pySet r.service_ids) data [] (by simp)
  rw [show get_region_services data
      = data.foldl (fun d r => dictInsert d r.name (pySet r.service_ids)) [] from rfl]
  exact h

theorem get_service_statuses_lookup (data : StatusResponse) (i : Nat) :
    dictLookup (get_service_statuses data).1 i
      = ((allRecords data).reverse.find? (fun s => decide (s.service_id = i))).map
          (fun s => ({ name := s.service_name, status := s.status } : ServiceStatus)) := by
  rw [get_service_statuses_eq_foldl, foldl_step_fst]
  have h := dictLookup_foldl_insert (fun s : ServiceRecord => s.service_id)
      (fun s => ({ name := s.service_name, status := s.status } : ServiceStatus))
      (allRecords data) [] i
  rw [h]
  cases (allRecords data).reverse.find? (fun s => decide (s.service_id = i)) <;>
    simp [dictLookup]

theorem mainVariant_get_region_services_eq :
    MainVariant.get_region_services = get_region_services := rfl

theorem mainVariant_get_service_statuses_eq :
    MainVariant.get_service_statuses = get_service_statuses := rfl

/-! ### Claims -/

/-- C1: for every status response processed by the Status Aggregator,
`count_status_1 + count_status_2 + count_status_3` is at most the number
of service records walked, with equality when every record's status code
is in {1,2,3}; the resulting `all_up` flag is true iff `count_status_2`
and `count_status_3` are both zero; `all_up` starts true (it is `true`
in the initial `overall_status`), and once it is false after some prefix
of the walk it stays false for the whole run. -/
theorem c1_status_aggregator_invariants (data : StatusResponse) :
    (get_service_statuses data).2.count_status_1
        + (get_service_statuses data).2.count_status_2
        + (get_service_statuses data).2.count_status_3 ≤ numRecords data
  ∧ ((∀ s ∈ allRecords data, s.status = 1 ∨ s.status = 2 ∨ s.status = 3) →
      (get_service_statuses data).2.count_status_1
        + (get_service_statuses data).2.count_status_2
        + (get_service_statuses data).2.count_status_3 = numRecords data)
  ∧ ((get_service_statuses data).2.all_up = true ↔
      (get_service_statuses data).2.count_status_2 = 0
        ∧ (get_service_statuses data).2.count_status_3 = 0)
  ∧ initOverall.all_up = true
  ∧ (∀ l1 l2, allRecords data = l1 ++ l2 →
      (l1.foldl stepService ([], initOverall)).2.all_up = false →
      (get_service_statuses data).2.all_up = false) := by
  rw [get_service_statuses_eq_foldl]
  refine ⟨?_, ?_, ?_, rfl, ?_⟩
  · rw [foldl_step_count1, foldl_step_count2, foldl_step_count3]
    simp only [initOverall, Nat.zero_add, numRecords]
    exact countP_three_le (allRecords data)
  · intro h
    rw [foldl_step_count1, foldl_step_count2, foldl_step_count3]
    simp only [initOverall, Nat.zero_add, numRecords]
    exact countP_three_eq (allRecords data) h
  · rw [foldl_step_all_up, foldl_step_count2, foldl_step_count3]
    simp only [initOverall, Nat.zero_add, Bool.true_and, List.all_eq_true,
      List.countP_eq_zero]
    simp only [Bool.and_eq_true, Bool.not_eq_true', decide_eq_false_iff_not,
      decide_eq_true_eq]
    constructor
    · intro h
      exact ⟨fun a ha => (h a ha).1, fun a ha => (h a ha).2⟩
    · intro h a ha
      exact ⟨h.1 a ha, h.2 a ha⟩
  · intro l1 l2 heq hfalse
    rw [heq, List.foldl_append, foldl_step_all_up, hfalse]
    simp

/-- Witness for C1 at the three-service fixture (statuses 1, 1, 3, all
in {1,2,3}, so the counters sum to the number of records walked). -/
theorem c1_witness :
    (get_service_statuses fixStatuses).2.count_status_1
      + (get_service_statuses fixStatuses).2.count_status_2
      + (get_service_statuses fixStatuses).2.count_status_3 = numRecords fixStatuses :=
  (c1_status_aggregator_invariants fixStatuses).2.1 (by decide)

/-- C2 counterexample: the two scripts do not have the same externally
visible success/failure behavior.  On an SMTP connection failure,
`src/main.py`'s `send_email` swallows the exception and returns
normally, while `src/Main.py`'s `send_email` propagates it. -/
theorem c2_counterexample :
    (send_email connectFailEnv false).outcome = Except.ok ()
  ∧ (MainVariant.send_email connectFailEnv false).outcome
      = Except.error "connection refused" := ⟨rfl, rfl⟩

/-- C2 (amended): the report-building pipelines of `src/Main.py` and
`src/main.py` are functionally identical — they produce the same report
string (and hence write the same file) for every pair of upstream
responses — but their success/failure behavior differs: there is an SMTP
failure that `src/main.py`'s `send_email` absorbs and `src/Main.py`'s
propagates. -/
theorem c2_pipeline_identical_failure_differs :
    (∀ regionData statusData,
        MainVariant.create_report regionData statusData
          = create_report regionData statusData)
  ∧ (∃ env : SmtpEnv, ∃ use_tls : Bool,
        (send_email env use_tls).outcome = Except.ok ()
          ∧ (MainVariant.send_email env use_tls).outcome ≠ Except.ok ()) := by
  constructor
  · intro regionData statusData
    simp only [MainVariant.create_report, create_report,
      mainVariant_get_region_services_eq, mainVariant_get_service_statuses_eq]
  · refine ⟨connectFailEnv, false, rfl, ?_⟩
    intro h
    simp [MainVariant.send_email, smtpTransaction, connectFailEnv] at h

/-- C3 counterexample: not every exception raised inside the SMTP block
is caught by `send_email` — in `src/Main.py` (cited by the claim) an
exception during login escapes the call. -/
theorem c3_counterexample :
    (MainVariant.send_email loginFailEnv true).outcome
      = Except.error "auth failed" := rfl

/-- C3 (amended): in `src/main.py`, every exception raised while
constructing the SMTP connection, negotiating TLS, logging in, or
sending the message is caught and logged by `send_email`, which returns
normally (so the run does not fail and the already-written report file
is unaffected); in `src/Main.py`, which has no handler, the same
exception escapes `send_email`. -/
theorem c3_mainpy_send_email_swallows (env : SmtpEnv) (use_tls : Bool) (e : String)
    (h : smtpTransaction env use_tls = Except.error e) :
    send_email env use_tls
      = { outcome := Except.ok (), logged_error := some e } := by
  unfold send_email
  rw [h]

/-- Witness for C3 at a connection failure. -/
theorem c3_witness :
    send_email connectFailEnv false
      = { outcome := Except.ok (), logged_error := some "connection refused" } :=
  c3_mainpy_send_email_swallows _ _ _ rfl

set_option maxRecDepth 100000 in
/-- C4: when both upstream fetches yield the empty mapping (the
simulated fetch failure), the report contains "Total number of
regions: 0", "Total number of services: 0" and "Overall status: All
services up" — a failed fetch is indistinguishable from all services
genuinely up. -/
theorem c4_empty_fetch_reports_healthy :
    strHas (create_report [] none) "Total number of regions: 0" = true
  ∧ strHas (create_report [] none) "Total number of services: 0" = true
  ∧ strHas (create_report [] none) "Overall status: All services up" = true :=
  ⟨rfl, rfl, rfl⟩

/-- C5: for every region-services response, the Region Aggregator's
mapping has exactly one entry per distinct `name` (its keys are
duplicate-free and a name is a key iff some record carries it), the
value stored under a name is the set of `service_ids` of the LAST record
with that name (overwrite, not merge or union — the lookup is the last
matching record's id set, i.e. the first in the reversed record list),
and the stored `pySet` has exactly the membership of the record's
`service_ids` list. -/
theorem c5_region_aggregator (data : RegionResponse) :
    (dictKeys (get_region_services data)).Nodup
  ∧ (∀ n, n ∈ dictKeys (get_region_services data) ↔ ∃ r ∈ data, r.name = n)
  ∧ (∀ n, dictLookup (get_region_services data) n
        = (data.reverse.find? (fun r => decide (r.name = n))).map
            (fun r => pySet r.service_ids))
  ∧ (∀ l : List Nat, ∀ i : Nat, i ∈ pySet l ↔ i ∈ l) :=
  ⟨get_region_services_keys_nodup data,
   fun n => get_region_services_keys_mem data n,
   fun n => get_region_services_lookup data n,
   fun l i => mem_pySet l i⟩

/-- Witness for C5: with two records named "Dup", the stored value is
the second record's id set. -/
theorem c5_witness :
    dictLookup (get_region_services dupRegions) "Dup" = some (pySet [2]) := by
  rw [(c5_region_aggregator dupRegions).2.2.1 "Dup"]
  rfl

/-- C6: in both per-region sections of the report a service renders as
"Up" exactly when its status code is 1: `renderStatus` — the shared
`"Up" if status == 1 else "Down"` expression — yields "Up" iff the code
is 1 and "Down" for every other code (2 and 3 included), and the
detailed section's `region_status` lists place a present service under
"Up" iff its status is 1 and under "Down" otherwise. -/
theorem c6_render_binary :
    (∀ status : Int, renderStatus status = "Up" ↔ status = 1)
  ∧ (∀ status : Int, status ≠ 1 → renderStatus status = "Down")
  ∧ renderStatus 2 = "Down" ∧ renderStatus 3 = "Down"
  ∧ (∀ (ss : Dict Nat ServiceStatus) (ids : List Nat),
      (regionStatusLists ss ids).1
        = ((ids.filterMap (dictLookup ss)).filter
            (fun sv => decide (sv.status = 1))).map (fun sv => sv.name)
      ∧ (regionStatusLists ss ids).2
        = ((ids.filterMap (dictLookup ss)).filter
            (fun sv => !(decide (sv.status = 1)))).map (fun sv => sv.name)) := by
  refine ⟨?_, ?_, rfl, rfl, fun ss ids => regionStatusLists_spec ss ids⟩
  · intro status
    by_cases h1 : status = 1 <;> simp [renderStatus, h1]
  · intro status h1
    simp [renderStatus, h1]

/-- Witness for C6: status code 2 renders as "Down". -/
theorem c6_witness : renderStatus 2 = "Down" :=
  c6_render_binary.2.1 2 (by decide)

/-- C7: a service id that sits in a region's id set but is not a key of
the status mapping contributes no list entry and no placeholder, in the
by-region listing and in the detailed section alike: removing it from
the id list leaves both rendered results unchanged.  (Both section
functions are total: the source guards the dictionary access with
`if service_id in service_statuses`, so no exception can be raised.) -/
theorem c7_absent_service_contributes_nothing (ss : Dict Nat ServiceStatus)
    (pre post : List Nat) (i : Nat) (h : dictLookup ss i = none) :
    regionServicesList ss (pre ++ i :: post) = regionServicesList ss (pre ++ post)
  ∧ regionStatusLists ss (pre ++ i :: post) = regionStatusLists ss (pre ++ post) :=
  ⟨regionServicesList_skips_absent ss pre post i h,
   regionStatusLists_skips_absent ss pre post i h⟩

/-- Witness for C7: id 5 is absent from a one-service status mapping and
contributes nothing to either section. -/
theorem c7_witness :
    regionServicesList [(1, { name := "A", status := 1 })] ([1] ++ 5 :: [])
      = regionServicesList [(1, { name := "A", status := 1 })] ([1] ++ [])
  ∧ regionStatusLists [(1, { name := "A", status := 1 })] ([1] ++ 5 :: [])
      = regionStatusLists [(1, { name := "A", status := 1 })] ([1] ++ []) :=
  c7_absent_service_contributes_nothing [(1, { name := "A", status := 1 })] [1] [] 5 rfl

set_option maxRecDepth 400000 in
/-- C8: on the fixture with 2 regions and 3 services of which 2 have
status 1 and 1 has status 3, the report contains the five literal
summary substrings the claim lists. -/
theorem c8_round_trip_fixture :
    strHas (create_report fixRegions fixStatuses) "Total number of regions: 2" = true
  ∧ strHas (create_report fixRegions fixStatuses) "Total number of services: 3" = true
  ∧ strHas (create_report fixRegions fixStatuses) "Services up: 2" = true
  ∧ strHas (create_report fixRegions fixStatuses) "Services down: 1" = true
  ∧ strHas (create_report fixRegions fixStatuses) "Some services are down" = true :=
  ⟨rfl, rfl, rfl, rfl, rfl⟩

/-- C9: when `EMAIL_RECIPIENTS` is unset, the run terminates with a
fatal error (the `AttributeError` from `None.split(',')`) after the
report file has been written and before any SMTP transaction is
attempted; no handler in either script catches it, so it escapes `main`.
The conjuncts cover `src/main.py` and `src/Main.py`. -/
theorem c9_missing_recipients_fatal (regionData : RegionResponse)
    (statusData : StatusResponse) (env : SmtpEnv) (use_tls : Bool) :
    (main_run regionData statusData none env use_tls).file_written
        = some (create_report regionData statusData)
  ∧ (main_run regionData statusData none env use_tls).smtp_attempted = false
  ∧ (main_run regionData statusData none env use_tls).result
        = Except.error noneSplitError
  ∧ (MainVariant.main_run regionData statusData none env use_tls).smtp_attempted = false
  ∧ (MainVariant.main_run regionData statusData none env use_tls).result
        = Except.error noneSplitError :=
  ⟨rfl, rfl, rfl, rfl, rfl⟩

/-- Witness for C9 at concrete inputs. -/
theorem c9_witness :
    (main_run [] none none connectFailEnv false).result = Except.error noneSplitError :=
  (c9_missing_recipients_fatal [] none connectFailEnv false).2.2.1

set_option maxRecDepth 400000 in
/-- C10: when a status response repeats a `service_id`, the mapping
keeps only the last record written to that id (the lookup is the last
matching record) while the counters increment once per record (each
counter equals the number of records with that status code); on the
concrete duplicate fixture the counters sum to 2 while the mapping has 1
entry, and the report shows "Total number of services: 1" next to
"Services up: 2". -/
theorem c10_duplicate_ids_last_wins (data : StatusResponse) :
    (∀ i, dictLookup (get_service_statuses data).1 i
        = ((allRecords data).reverse.find? (fun s => decide (s.service_id = i))).map
            (fun s => ({ name := s.service_name, status := s.status } : ServiceStatus)))
  ∧ (get_service_statuses data).2.count_status_1
      = (allRecords data).countP (fun s => decide (s.status = 1))
  ∧ (get_service_statuses data).2.count_status_2
      = (allRecords data).countP (fun s => decide (s.status = 2))
  ∧ (get_service_statuses data).2.count_status_3
      = (allRecords data).countP (fun s => decide (s.status = 3))
  ∧ ((get_service_statuses dupStatuses).2.count_status_1
        + (get_service_statuses dupStatuses).2.count_status_2
        + (get_service_statuses dupStatuses).2.count_status_3 = 2
      ∧ (get_service_statuses dupStatuses).1.length = 1
      ∧ strHas (create_report [] dupStatuses) "Total number of services: 1" = true
      ∧ strHas (create_report [] dupStatuses) "Services up: 2" = true) := by
  refine ⟨get_service_statuses_lookup data, ?_, ?_, ?_, by decide, by decide, rfl, rfl⟩
  · rw [get_service_statuses_eq_foldl, foldl_step_count1]
    simp [initOverall]
  · rw [get_service_statuses_eq_foldl, foldl_step_count2]
    simp [initOverall]
  · rw [get_service_statuses_eq_foldl, foldl_step_count3]
    simp [initOverall]
